import Mathlib

/-!
Shallow embedding of `nova/conductor/tasks/live_migrate.py` (class
`LiveMigrationTask`), the live-migration placement workflow.

External collaborators (the database, the servicegroup API, the scheduler
RPC API and the compute RPC API) are modelled as a record of oracle
functions `Env`; each workflow method becomes a pure function of that
environment.  Scheduler and compute-host RPC invocations are recorded in a
`Trace` so that temporal statements ("before any scheduler call is made")
are expressible.  Python floats in the memory computation are modelled as
exact rationals, fallible calls as `Except`, and the unbounded `while`
loop of `_find_destination` is given an explicit fuel parameter: a result
of `none` means the fuel bound was hit before the loop settled.
-/

/-- One compute-node record, as returned by `service_ref['compute_node'][0]`
in `_get_compute_info`: memory figures in MB, hypervisor type string and
integer hypervisor version. -/
structure ComputeNode where
  memory_mb : Nat
  memory_mb_used : Nat
  hypervisor_type : String
  hypervisor_version : Nat
deriving DecidableEq

/-- A service record from `db.service_get_by_compute_host`: the compute
host it serves and its `compute_node` list. -/
structure Service where
  host : String
  compute_node : List ComputeNode
deriving DecidableEq

/-- An aggregate row from `db.aggregate_get_by_host`: its name and the
`ram_allocation_ratio` entry of its `metadetails` dict (the field is named
`ram_allocation` here; the source parses the dict entry with `float`,
modelled as an exact rational). -/
structure Aggregate where
  name : String
  ram_allocation : ℚ
deriving DecidableEq

/-- The pass-through migrate-data payload produced by the destination
precheck and consumed unmodified by the final dispatch. -/
abbrev MigrateData := String

/-- Structured rendering of the `reason` format strings interpolated into
`MigrationPreCheckError` by `_get_aggregate_metadata` and
`_check_destination_has_enough_memory`.  The instance uuid and destination
host interpolated into every reason are fixed per call site and omitted;
the data that varies per failure (the collected aggregate names, the
computed availability and the instance memory requirement) is kept. -/
inductive PreCheckReason where
  | moreThanOneAggregate (agg_name : List String)
  | notInAnyAggregate
  | lackOfMemory (avail : ℚ) (mem_inst : Option Nat)
deriving DecidableEq

/-- The exceptions the sampled code raises or propagates.  `NotFound` is
the bare db lookup failure propagated by `_get_compute_info`;
`IndexError` is python list indexing of an empty list (`[0]` in
`_get_candidate_destination`, `['compute_node'][0]` in
`_get_compute_info`); `PrecheckRejected` and `PrecheckFailed` are
rejections surfaced by the destination precheck RPC, the first of
python class `exception.Invalid`, the second not. -/
inductive Err where
  | InstanceNotRunning (instance_id : String)
  | ComputeServiceUnavailable (host : String)
  | UnableToMigrateToSelf (instance_id : String) (host : String)
  | MigrationPreCheckError (reason : PreCheckReason)
  | InvalidHypervisorType
  | DestinationHypervisorTooOld
  | NoValidHost
  | NotFound (host : String)
  | IndexError
  | PrecheckRejected (msg : String)
  | PrecheckFailed (msg : String)
deriving DecidableEq

/-- Modelled from the spec: the repository's exception class hierarchy
(`nova/exception.py`) is not among the sampled sources, and the retry loop
branches on `isinstance(e, exception.Invalid)`.  Per section 7 of the spec
the failures that are retryable (`Invalid`-class) for a selector-generated
candidate are ComputeServiceUnavailable, MigrationPreCheckError, the two
hypervisor mismatches and a precheck rejection; everything else
propagates. -/
def ErrIsInvalid : Err → Bool
  | .ComputeServiceUnavailable _ => true
  | .MigrationPreCheckError _ => true
  | .InvalidHypervisorType => true
  | .DestinationHypervisorTooOld => true
  | .PrecheckRejected _ => true
  | _ => false

/-- The external collaborators of `LiveMigrationTask`, as oracle
functions.  `select_hosts` models `scheduler_rpcapi.select_hosts`: the
request spec (instance properties, flavor, optional image metadata) is
fixed for the lifetime of one task and is absorbed into the oracle, whose
only per-call varying argument is `filter_properties['ignore_hosts']`.
`check_can_live_migrate_destination` likewise absorbs the fixed instance,
block-migration and disk-over-commit arguments. -/
structure Env where
  service_get_by_compute_host : String → Option Service
  service_is_up : Service → Bool
  aggregate_get_by_host : String → List Aggregate
  select_hosts : List String → List String
  check_can_live_migrate_destination : String → Except Err MigrateData

/-- The instance being migrated (`self.instance`); `memory_mb` is `none`
when the record carries no memory requirement (python `None`). -/
structure Instance where
  uuid : String
  host : String
  power_state : Nat
  memory_mb : Option Nat
  image_ref : Option String
deriving DecidableEq

/-- The constructor arguments of `LiveMigrationTask`; `self.source` is
`inst.host`. -/
structure MigTask where
  inst : Instance
  destination : Option String
  block_migration : Bool
  disk_over_commit : Bool
deriving DecidableEq

/-- Record of the scheduler and compute-host RPC invocations a run makes:
the successive `ignore_hosts` lists passed to `select_hosts`, the
destinations passed to the precheck RPC, and the destinations passed to
the final `live_migration` dispatch. -/
structure Trace where
  sched_calls : List (List String)
  precheck_calls : List String
  live_migration_calls : List String
deriving DecidableEq

/-- The empty trace: no scheduler or compute-host call was made. -/
def Trace.nil : Trace := ⟨[], [], []⟩

/-- Concatenation of traces, in execution order. -/
def Trace.app (a b : Trace) : Trace :=
  ⟨a.sched_calls ++ b.sched_calls, a.precheck_calls ++ b.precheck_calls,
   a.live_migration_calls ++ b.live_migration_calls⟩

instance : Append Trace := ⟨Trace.app⟩

/-- Modelled from the spec: `nova/compute/power_state.py` is not among the
sampled sources; only the comparison of `instance.power_state` against
`power_state.RUNNING` matters, so the value is an arbitrary fixed code. -/
def power_state_RUNNING : Nat := 1

/-- Models `_check_instance_is_running`. -/
def check_instance_is_running (inst : Instance) : Except Err Unit :=
  if inst.power_state ≠ power_state_RUNNING then
    .error (.InstanceNotRunning inst.uuid)
  else .ok ()

/-- Models `_check_host_is_up`: a `NotFound` from the db lookup is caught
and re-raised as `ComputeServiceUnavailable`, as is a negative liveness
report from the servicegroup API. -/
def check_host_is_up (env : Env) (host : String) : Except Err Unit :=
  match env.service_get_by_compute_host host with
  | none => .error (.ComputeServiceUnavailable host)
  | some service =>
      if env.service_is_up service then .ok ()
      else .error (.ComputeServiceUnavailable host)

/-- Models `_check_destination_is_not_source` (`self.source` is
`inst.host`). -/
def check_destination_is_not_source (inst : Instance) (destination : String) :
    Except Err Unit :=
  if destination = inst.host then
    .error (.UnableToMigrateToSelf inst.uuid destination)
  else .ok ()

/-- Models `_get_compute_info`: the db lookup propagates its `NotFound`
bare, and `['compute_node'][0]` on an empty list raises `IndexError`. -/
def get_compute_info (env : Env) (host : String) : Except Err ComputeNode :=
  match env.service_get_by_compute_host host with
  | none => .error (.NotFound host)
  | some service_ref =>
      match service_ref.compute_node.head? with
      | none => .error .IndexError
      | some cn => .ok cn

/-- Models the for-loop over `aggregate_list` in `_get_aggregate_metadata`:
the body appends `i.name` to `agg_name` and then unconditionally raises,
so the raise fires on the first iteration and later elements are never
reached.  Returns the `agg_name` value at the moment of the raise, or
`none` when the list is empty and the body never runs. -/
def agg_name_loop (agg_name : List String) : List Aggregate → Option (List String)
  | [] => none
  | i :: _ => some (agg_name ++ [i.name])

/-- Models `_get_aggregate_metadata` (the source queries
`self.destination`; it is only ever called with `dest = self.destination`).
Exactly one membership returns that aggregate; the greater-than-one branch
raises with whatever `agg_name` the loop accumulated when the raise fired;
fewer than one raises the not-in-any-aggregates reason.  The two fallback
arms are unreachable given the length tests. -/
def get_aggregate_metadata (env : Env) (dest : String) : Except Err Aggregate :=
  let aggregate_list := env.aggregate_get_by_host dest
  if aggregate_list.length = 1 then
    match aggregate_list.head? with
    | some a => .ok a
    | none => .error (.MigrationPreCheckError .notInAnyAggregate)
  else if aggregate_list.length > 1 then
    match agg_name_loop [] aggregate_list with
    | some agg_name => .error (.MigrationPreCheckError (.moreThanOneAggregate agg_name))
    | none => .error (.MigrationPreCheckError (.moreThanOneAggregate []))
  else
    .error (.MigrationPreCheckError .notInAnyAggregate)

/-- Models `_check_destination_has_enough_memory`: resolve the single
aggregate, read total and used memory from two `_get_compute_info` calls,
compute `real_total = total * ram_ratio` and `avail = real_total - used`
in float (here exact rational) arithmetic, and raise when the instance
memory requirement is falsy (`None` or `0`) or `avail <= mem_inst`. -/
def check_destination_has_enough_memory (env : Env) (inst : Instance)
    (dest : String) : Except Err Unit :=
  match get_aggregate_metadata env dest with
  | .error e => .error e
  | .ok aggr =>
  let ram_ratio : ℚ := aggr.ram_allocation
  match get_compute_info env dest with
  | .error e => .error e
  | .ok info_for_total =>
  let total := info_for_total.memory_mb
  match get_compute_info env dest with
  | .error e => .error e
  | .ok info_for_used =>
  let used := info_for_used.memory_mb_used
  let real_total : ℚ := (total : ℚ) * ram_ratio
  let avail : ℚ := real_total - (used : ℚ)
  match inst.memory_mb with
  | none => .error (.MigrationPreCheckError (.lackOfMemory avail none))
  | some mem_inst =>
      if mem_inst = 0 ∨ avail ≤ (mem_inst : ℚ) then
        .error (.MigrationPreCheckError (.lackOfMemory avail (some mem_inst)))
      else .ok ()

/-- Models `_check_compatible_with_source_hypervisor`: fetch compute info
for source and destination, require equal hypervisor types, then require
the source version not to exceed the destination version. -/
def check_compatible_with_source_hypervisor (env : Env) (inst : Instance)
    (destination : String) : Except Err Unit :=
  match get_compute_info env inst.host with
  | .error e => .error e
  | .ok source_info =>
  match get_compute_info env destination with
  | .error e => .error e
  | .ok destination_info =>
  if source_info.hypervisor_type ≠ destination_info.hypervisor_type then
    .error .InvalidHypervisorType
  else if source_info.hypervisor_version > destination_info.hypervisor_version then
    .error .DestinationHypervisorTooOld
  else .ok ()

/-- Models `_call_livem_checks_on_host`: one precheck RPC to the
destination compute host, recorded in the trace. -/
def call_livem_checks_on_host (env : Env) (destination : String) :
    Except Err MigrateData × Trace :=
  (env.check_can_live_migrate_destination destination, ⟨[], [destination], []⟩)

/-- Models `_check_requested_destination`, in source order: identity
check, liveness check, memory/aggregate capacity check, hypervisor check,
destination precheck RPC. -/
def check_requested_destination (env : Env) (inst : Instance)
    (destination : String) : Except Err MigrateData × Trace :=
  match check_destination_is_not_source inst destination with
  | .error e => (.error e, Trace.nil)
  | .ok _ =>
  match check_host_is_up env destination with
  | .error e => (.error e, Trace.nil)
  | .ok _ =>
  match check_destination_has_enough_memory env inst destination with
  | .error e => (.error e, Trace.nil)
  | .ok _ =>
  match check_compatible_with_source_hypervisor env inst destination with
  | .error e => (.error e, Trace.nil)
  | .ok _ => call_livem_checks_on_host env destination

/-- Models `_check_not_over_max_retries`: `-1` means unlimited; otherwise
`retries = len(attempted_hosts) - 1` and exceeding the budget raises
`NoValidHost`. -/
def check_not_over_max_retries (migrate_max_retries : Int)
    (attempted_hosts : List String) : Except Err Unit :=
  if migrate_max_retries = -1 then .ok ()
  else
    let retries : Int := (attempted_hosts.length : Int) - 1
    if retries > migrate_max_retries then .error .NoValidHost else .ok ()

/-- Models `_get_candidate_destination`: one `select_hosts` RPC carrying
`filter_properties = dict(ignore_hosts=attempted_hosts)`, indexed at `[0]`;
indexing an empty result raises `IndexError`.  The scheduler call is
recorded in the trace whether or not the indexing succeeds. -/
def get_candidate_destination (env : Env) (attempted_hosts : List String) :
    Except Err String × Trace :=
  (match (env.select_hosts attempted_hosts).head? with
   | none => .error .IndexError
   | some h => .ok h,
   ⟨[attempted_hosts], [], []⟩)

/-- The body of the try-block in `_find_destination`:
`_check_compatible_with_source_hypervisor(host)` followed by
`_call_livem_checks_on_host(host)`.  These two are the only checks the
selection loop runs on a candidate. -/
def candidate_checks (env : Env) (inst : Instance) (host : String) :
    Except Err MigrateData × Trace :=
  match check_compatible_with_source_hypervisor env inst host with
  | .error e => (.error e, Trace.nil)
  | .ok _ => call_livem_checks_on_host env host

/-- The while-loop of `_find_destination`, with fuel bounding the number
of iterations (the python loop is unbounded when retries are unlimited);
`none` means the bound was hit first.  Each iteration checks the retry
budget, fetches one candidate, runs `candidate_checks`; on an
`exception.Invalid`-class failure the candidate is appended to
`attempted_hosts` and the loop continues, any other failure propagates. -/
def find_destination_loop (env : Env) (migrate_max_retries : Int)
    (inst : Instance) : Nat → List String → Option (Except Err String × Trace)
  | 0, _ => none
  | fuel + 1, attempted_hosts =>
    match check_not_over_max_retries migrate_max_retries attempted_hosts with
    | .error e => some (.error e, Trace.nil)
    | .ok _ =>
      match get_candidate_destination env attempted_hosts with
      | (.error e, t1) => some (.error e, t1)
      | (.ok host, t1) =>
        match candidate_checks env inst host with
        | (.ok _, t2) => some (.ok host, t1 ++ t2)
        | (.error e, t2) =>
          if ErrIsInvalid e then
            match find_destination_loop env migrate_max_retries inst fuel
                (attempted_hosts ++ [host]) with
            | none => none
            | some (r, t3) => some (r, t1 ++ t2 ++ t3)
          else some (.error e, t1 ++ t2)

/-- Models `_find_destination`: the image metadata and flavor extraction
before the loop are per-task constants absorbed into the scheduler oracle;
`attempted_hosts` starts as `[self.source]`. -/
def find_destination (env : Env) (migrate_max_retries : Int)
    (inst : Instance) (fuel : Nat) : Option (Except Err String × Trace) :=
  find_destination_loop env migrate_max_retries inst fuel [inst.host]

/-- Python truthiness of `self.destination` as tested by
`if not self.destination`: `None` and the empty string are falsy. -/
def pyTruthy : Option String → Bool
  | none => false
  | some s => s != ""

/-- Models `LiveMigrationTask.execute`: the running check, the source
liveness check, then either the automatic-selection path (branch taken
when the destination is falsy) or the explicit-destination validation,
and finally the `live_migration` dispatch to the chosen destination,
recorded in the trace.  On success the value is the destination host the
migration was dispatched to. -/
def execute (env : Env) (migrate_max_retries : Int) (task : MigTask)
    (fuel : Nat) : Option (Except Err String × Trace) :=
  match check_instance_is_running task.inst with
  | .error e => some (.error e, Trace.nil)
  | .ok _ =>
  match check_host_is_up env task.inst.host with
  | .error e => some (.error e, Trace.nil)
  | .ok _ =>
  if pyTruthy task.destination = false then
    match find_destination env migrate_max_retries task.inst fuel with
    | none => none
    | some (.error e, t) => some (.error e, t)
    | some (.ok destination, t) =>
        some (.ok destination, t ++ Trace.mk [] [] [destination])
  else
    let destination := task.destination.getD ""
    match check_requested_destination env task.inst destination with
    | (.error e, t) => some (.error e, t)
    | (.ok _, t) => some (.ok destination, t ++ Trace.mk [] [] [destination])

/-! ### Trace lemmas -/

@[simp] lemma Trace_app_sched_calls (a b : Trace) :
    (a ++ b).sched_calls = a.sched_calls ++ b.sched_calls := rfl

@[simp] lemma Trace_app_precheck_calls (a b : Trace) :
    (a ++ b).precheck_calls = a.precheck_calls ++ b.precheck_calls := rfl

@[simp] lemma Trace_app_live_migration_calls (a b : Trace) :
    (a ++ b).live_migration_calls = a.live_migration_calls ++ b.live_migration_calls := rfl

@[simp] lemma Trace_nil_sched_calls : Trace.nil.sched_calls = [] := rfl

@[simp] lemma Trace_nil_precheck_calls : Trace.nil.precheck_calls = [] := rfl

@[simp] lemma Trace_nil_live_migration_calls : Trace.nil.live_migration_calls = [] := rfl

/-- The candidate checks of the selection loop never contact the
scheduler: their trace records at most the one precheck RPC. -/
lemma candidate_checks_sched_calls (env : Env) (inst : Instance) (host : String) :
    (candidate_checks env inst host).2.sched_calls = [] := by
  unfold candidate_checks
  cases check_compatible_with_source_hypervisor env inst host <;>
    simp [call_livem_checks_on_host, Trace.nil]

/-! ### The shape of the successive scheduler exclusion lists -/

/-- The shape of the successive `ignore_hosts` lists one run of the
selection loop passes to the scheduler, starting from attempted set `a`:
the first call receives exactly `a`, and each later call receives the
previous list extended by exactly one (rejected) host. -/
inductive SchedChain : List String → List (List String) → Prop where
  | nil (a : List String) : SchedChain a []
  | cons (a : List String) (g : String) (rest : List (List String))
      (tail : SchedChain (a ++ [g]) rest) : SchedChain a (a :: rest)

lemma schedChain_head (a : List String) (calls : List (List String))
    (h : SchedChain a calls) : ∀ l, calls.head? = some l → l = a := by
  cases h <;> simp_all

lemma schedChain_mem (a : List String) (calls : List (List String))
    (h : SchedChain a calls) : ∀ l ∈ calls, ∃ ext, l = a ++ ext := by
  induction h with
  | nil a => simp
  | cons a g rest tail ih =>
    intro l hl
    rcases List.mem_cons.mp hl with rfl | hl2
    · exact ⟨[], (List.append_nil l).symm⟩
    · rcases ih l hl2 with ⟨ext, hext⟩
      exact ⟨[g] ++ ext, by rw [hext, List.append_assoc]⟩

lemma schedChain_chain (a : List String) (calls : List (List String))
    (h : SchedChain a calls) :
    List.Chain' (fun x y => ∃ g, y = x ++ [g]) calls := by
  induction h with
  | nil a => exact List.chain'_nil
  | cons a g rest tail ih =>
    cases rest with
    | nil => exact List.chain'_singleton a
    | cons b rest2 =>
      have hb : b = a ++ [g] := schedChain_head _ _ tail b rfl
      exact List.chain'_cons.mpr ⟨⟨g, hb⟩, ih⟩

lemma schedChain_mono (a : List String) (calls : List (List String))
    (h : SchedChain a calls) :
    ∀ i j (hi : i < calls.length) (hj : j < calls.length), i ≤ j →
      ∃ ext, calls.get ⟨j, hj⟩ = calls.get ⟨i, hi⟩ ++ ext := by
  induction h with
  | nil a => intro i j hi hj _; simp at hi
  | cons a g rest tail ih =>
    intro i j hi hj hij
    cases i with
    | zero =>
      cases j with
      | zero => exact ⟨[], by simp⟩
      | succ j =>
        have hj2 : j < rest.length := by simpa using hj
        rcases schedChain_mem _ _ tail (rest.get ⟨j, hj2⟩)
            (List.get_mem rest j hj2) with ⟨ext, hext⟩
        refine ⟨[g] ++ ext, ?_⟩
        have hjget : (a :: rest).get ⟨j + 1, hj⟩ = rest.get ⟨j, hj2⟩ := rfl
        have h0get : (a :: rest).get ⟨0, hi⟩ = a := rfl
        rw [hjget, h0get, hext, List.append_assoc]
    | succ i =>
      cases j with
      | zero => omega
      | succ j =>
        have hi2 : i < rest.length := by simpa using hi
        have hj2 : j < rest.length := by simpa using hj
        have := ih i j hi2 hj2 (by omega)
        simpa using this

/-- Core invariant of the selection loop: whenever the loop settles, the
successive exclusion lists it passed to the scheduler form a
`SchedChain` rooted at the attempted set the loop started from. -/
lemma find_destination_loop_schedChain (env : Env) (mr : Int) (inst : Instance) :
    ∀ (fuel : Nat) (attempted : List String) (r : Except Err String) (t : Trace),
      find_destination_loop env mr inst fuel attempted = some (r, t) →
      SchedChain attempted t.sched_calls := by
  intro fuel
  induction fuel with
  | zero => intro attempted r t h; simp [find_destination_loop] at h
  | succ n ih =>
    intro attempted r t h
    rw [find_destination_loop] at h
    cases hb : check_not_over_max_retries mr attempted with
    | error e =>
      rw [hb] at h
      obtain ⟨h1, h2⟩ : Except.error e = r ∧ Trace.nil = t := by simpa using h
      rw [← h2]
      simpa using SchedChain.nil attempted
    | ok u =>
      rw [hb] at h
      simp only [get_candidate_destination] at h
      cases hh : (env.select_hosts attempted).head? with
      | none =>
        rw [hh] at h
        obtain ⟨h1, h2⟩ : Except.error Err.IndexError = r ∧
            Trace.mk [attempted] [] [] = t := by simpa using h
        rw [← h2]
        exact SchedChain.cons attempted "" [] (SchedChain.nil _)
      | some host =>
        simp only [hh] at h
        obtain ⟨res, t2, hc⟩ : ∃ res t2, candidate_checks env inst host = (res, t2) :=
          ⟨_, _, rfl⟩
        have ht2 : t2.sched_calls = [] := by
          have h0 := candidate_checks_sched_calls env inst host
          rw [hc] at h0
          exact h0
        rw [hc] at h
        cases res with
        | ok md =>
          obtain ⟨h1, h2⟩ : Except.ok host = r ∧
              Trace.mk [attempted] [] [] ++ t2 = t := by simpa using h
          rw [← h2]
          simp only [Trace_app_sched_calls, ht2]
          exact SchedChain.cons attempted "" [] (SchedChain.nil _)
        | error e =>
          cases hi : ErrIsInvalid e with
          | false =>
            obtain ⟨h1, h2⟩ : Except.error e = r ∧
                Trace.mk [attempted] [] [] ++ t2 = t := by simpa [hi] using h
            rw [← h2]
            simp only [Trace_app_sched_calls, ht2]
            exact SchedChain.cons attempted "" [] (SchedChain.nil _)
          | true =>
            cases hrec : find_destination_loop env mr inst n (attempted ++ [host]) with
            | none => simp [hi, hrec] at h
            | some p =>
              obtain ⟨r3, t3⟩ := p
              obtain ⟨h1, h2⟩ : r3 = r ∧
                  Trace.mk [attempted] [] [] ++ t2 ++ t3 = t := by
                simpa [hi, hrec] using h
              rw [← h2]
              simp only [Trace_app_sched_calls, ht2]
              simp only [List.append_nil, List.singleton_append]
              exact SchedChain.cons attempted host _ (ih (attempted ++ [host]) r3 t3 hrec)

/-! ### Concrete instances, compute nodes and environments used to
exercise the model on closed inputs -/

/-- A kvm node, 100 MB total, 50 MB used, hypervisor version 5. -/
def cn_kvm5 : ComputeNode := ⟨100, 50, "kvm", 5⟩

/-- A kvm node at hypervisor version 4. -/
def cn_kvm4 : ComputeNode := ⟨100, 50, "kvm", 4⟩

/-- A kvm node at hypervisor version 6. -/
def cn_kvm6 : ComputeNode := ⟨100, 50, "kvm", 6⟩

/-- A xen node at hypervisor version 5. -/
def cn_xen5 : ComputeNode := ⟨100, 50, "xen", 5⟩

/-- A running instance on host `src` with a 64 MB memory requirement. -/
def instW : Instance := ⟨"uuid-1", "src", 1, some 64, none⟩

/-- `instW` with a non-running power state. -/
def instStopped : Instance := ⟨"uuid-1", "src", 4, some 64, none⟩

/-- Two aggregates sharing ratio 1. -/
def aggA : Aggregate := ⟨"agg1", 1⟩

/-- Second aggregate for the more-than-one-membership case. -/
def aggB : Aggregate := ⟨"agg2", 1⟩

/-- Everything alive; the scheduler proposes `c1` (a xen host, rejected on
hypervisor type) against exclusion list `[src]`, then `c2` (accepted)
against `[src, c1]`. -/
def envW : Env :=
  ⟨fun h =>
      if h = "src" then some ⟨"src", [cn_kvm5]⟩
      else if h = "c1" then some ⟨"c1", [cn_xen5]⟩
      else if h = "c2" then some ⟨"c2", [cn_kvm5]⟩
      else none,
    fun _ => true,
    fun _ => [],
    fun a =>
      if a = ["src"] then ["c1"]
      else if a = ["src", "c1"] then ["c2"]
      else [],
    fun _ => .ok "md"⟩

/-- Candidate `c1` is hypervisor-compatible and passes the precheck, but
its service is down and it belongs to no aggregate: the selection loop
accepts it anyway. -/
def envC1 : Env :=
  ⟨fun h =>
      if h = "src" then some ⟨"src", [cn_kvm5]⟩
      else if h = "c1" then some ⟨"c1", [cn_kvm5]⟩
      else none,
    fun s => s.host == "src",
    fun _ => [],
    fun a => if a = ["src"] then ["c1"] else [],
    fun _ => .ok "md"⟩

/-- Destination `dest` in exactly one aggregate of ratio 1, with a
100 MB / 50 MB-used compute node: `avail = 100 * 1 - 50 = 50`. -/
def envM : Env :=
  ⟨fun h => if h = "dest" then some ⟨"dest", [cn_kvm5]⟩ else none,
    fun _ => true,
    fun h => if h = "dest" then [aggA] else [],
    fun _ => [],
    fun _ => .ok "md"⟩

/-- Instance requiring exactly the 50 MB that are available. -/
def instM50 : Instance := ⟨"uuid-2", "src", 1, some 50, none⟩

/-- Instance requiring one MB less than the 50 MB available. -/
def instM49 : Instance := ⟨"uuid-3", "src", 1, some 49, none⟩

/-- Source at hypervisor version 5 next to kvm destinations at versions
4, 5 and 6 and a xen destination. -/
def envH : Env :=
  ⟨fun h =>
      if h = "src" then some ⟨"src", [cn_kvm5]⟩
      else if h = "d4" then some ⟨"d4", [cn_kvm4]⟩
      else if h = "d5" then some ⟨"d5", [cn_kvm5]⟩
      else if h = "d6" then some ⟨"d6", [cn_kvm6]⟩
      else if h = "x5" then some ⟨"x5", [cn_xen5]⟩
      else none,
    fun _ => true, fun _ => [], fun _ => [], fun _ => .ok "md"⟩

/-- Host `dest` is a member of two aggregates. -/
def envA2 : Env :=
  ⟨fun _ => none, fun _ => true,
    fun h => if h = "dest" then [aggA, aggB] else [],
    fun _ => [], fun _ => .ok "md"⟩

/-- Host `dest` is a member of no aggregate. -/
def envA0 : Env :=
  ⟨fun _ => none, fun _ => true, fun _ => [], fun _ => [], fun _ => .ok "md"⟩

/-- Host `dest` is a member of exactly one aggregate. -/
def envA1 : Env :=
  ⟨fun _ => none, fun _ => true,
    fun h => if h = "dest" then [aggA] else [],
    fun _ => [], fun _ => .ok "md"⟩

/-- The scheduler returns an empty candidate list for every request. -/
def envE : Env :=
  ⟨fun h => if h = "src" then some ⟨"src", [cn_kvm5]⟩ else none,
    fun _ => true, fun _ => [], fun _ => [], fun _ => .ok "md"⟩

/-- Automatic-selection task for `instW`. -/
def taskW : MigTask := ⟨instW, none, false, false⟩

/-- Task for the stopped instance. -/
def taskStopped : MigTask := ⟨instStopped, none, false, false⟩

/-- Task whose explicit destination is the instance's own source host. -/
def taskSelf : MigTask := ⟨instW, some "src", false, false⟩

/-! ### Claim theorems -/

/-- C7: for every environment, retry limit, task and fuel, when the
instance's power state is not the running state, `execute` fails with
`InstanceNotRunning` and the trace is empty: no scheduler or compute-host
call was made. -/
theorem C7_not_running_fails_first (env : Env) (mr : Int) (task : MigTask)
    (fuel : Nat) (h : task.inst.power_state ≠ power_state_RUNNING) :
    execute env mr task fuel =
      some (.error (.InstanceNotRunning task.inst.uuid), Trace.nil) := by
  simp [execute, check_instance_is_running, h]

/-- Witness for C7 at a concrete stopped instance. -/
theorem C7_not_running_fails_first_witness :
    execute envW (-1) taskStopped 1 =
      some (.error (.InstanceNotRunning "uuid-1"), Trace.nil) :=
  C7_not_running_fails_first envW (-1) taskStopped 1 (by decide)

/-- C8: for every environment and every task whose explicit destination is
truthy and equals the source host, once the running and source-liveness
preconditions pass, `execute` fails with `UnableToMigrateToSelf` and the
trace is empty — in particular the scheduler was never consulted, and
since the theorem quantifies over all environments, no property of the
destination host (liveness, aggregates, memory, hypervisor) was examined:
the identity check is the first check run on an explicit destination. -/
theorem C8_migrate_to_self (env : Env) (mr : Int) (task : MigTask)
    (fuel : Nat) (d : String)
    (hrun : task.inst.power_state = power_state_RUNNING)
    (hup : check_host_is_up env task.inst.host = .ok ())
    (hdest : task.destination = some d)
    (hne : d ≠ "")
    (hself : d = task.inst.host) :
    execute env mr task fuel =
      some (.error (.UnableToMigrateToSelf task.inst.uuid d), Trace.nil) := by
  have h1 : check_instance_is_running task.inst = .ok () := by
    simp [check_instance_is_running, hrun]
  have hpy : pyTruthy (some d) = true := by
    simp [pyTruthy, hne]
  have h3 : check_destination_is_not_source task.inst d =
      .error (.UnableToMigrateToSelf task.inst.uuid d) := by
    simp [check_destination_is_not_source, hself]
  simp [execute, h1, hup, hpy, hdest, check_requested_destination, h3]

/-- Witness for C8: destination equal to the source host. -/
theorem C8_migrate_to_self_witness :
    execute envW (-1) taskSelf 1 =
      some (.error (.UnableToMigrateToSelf "uuid-1" "src"), Trace.nil) :=
  C8_migrate_to_self envW (-1) taskSelf 1 "src" rfl rfl rfl (by decide) rfl

/-- C10: a present-but-falsy explicit destination (the empty string) makes
`execute` behave exactly as if no destination had been supplied, because
the branch tests the destination's truthiness: the automatic-selection
path is taken instead of validating the supplied value. -/
theorem C10_falsy_destination_auto_path (env : Env) (mr : Int)
    (inst : Instance) (bm dc : Bool) (fuel : Nat) :
    execute env mr (MigTask.mk inst (some "") bm dc) fuel =
      execute env mr (MigTask.mk inst none bm dc) fuel := by
  unfold execute
  rfl

/-- C3: evaluating `_get_aggregate_metadata` on a host that belongs to the
two aggregates named agg1 and agg2 raises `MigrationPreCheckError` during
the first loop iteration, reporting only the first aggregate's name even
though both memberships exist; zero memberships raise the
not-in-any-aggregates reason and exactly one membership returns that
aggregate. -/
theorem C3_aggregate_reports_first_name_only :
    get_aggregate_metadata envA2 "dest" =
      .error (.MigrationPreCheckError (.moreThanOneAggregate ["agg1"]))
    ∧ (envA2.aggregate_get_by_host "dest").map Aggregate.name = ["agg1", "agg2"]
    ∧ get_aggregate_metadata envA0 "dest" =
      .error (.MigrationPreCheckError .notInAnyAggregate)
    ∧ get_aggregate_metadata envA1 "dest" = .ok aggA :=
  ⟨rfl, rfl, rfl, rfl⟩

/-- C9: once compute info resolves for source and destination, the
hypervisor check fails with `InvalidHypervisorType` exactly when the
types differ, fails with `DestinationHypervisorTooOld` exactly when the
types match and the destination version is strictly below the source
version, and passes exactly when the types match and the destination
version is at least the source version. -/
theorem C9_hypervisor_check (env : Env) (inst : Instance) (dest : String)
    (si di : ComputeNode)
    (hs : get_compute_info env inst.host = .ok si)
    (hd : get_compute_info env dest = .ok di) :
    (check_compatible_with_source_hypervisor env inst dest =
        .error .InvalidHypervisorType ↔
      si.hypervisor_type ≠ di.hypervisor_type)
    ∧ (check_compatible_with_source_hypervisor env inst dest =
        .error .DestinationHypervisorTooOld ↔
      (si.hypervisor_type = di.hypervisor_type ∧
        di.hypervisor_version < si.hypervisor_version))
    ∧ (check_compatible_with_source_hypervisor env inst dest = .ok () ↔
      (si.hypervisor_type = di.hypervisor_type ∧
        si.hypervisor_version ≤ di.hypervisor_version)) := by
  unfold check_compatible_with_source_hypervisor
  rw [hs, hd]
  by_cases h1 : si.hypervisor_type = di.hypervisor_type
  · by_cases h2 : si.hypervisor_version > di.hypervisor_version
    · refine ⟨?_, ?_, ?_⟩ <;> simp [h1, h2]
    · refine ⟨?_, ?_, ?_⟩
      · simp [h1, h2]
      · simp [h1, h2]
      · simp [h1, h2]
        omega
  · refine ⟨?_, ?_, ?_⟩ <;> simp [h1]

/-- Witness for C9 at the spec's example versions: source version 5
against destinations at versions 4 (too old), 5 and 6 (both pass), and a
type mismatch. -/
theorem C9_hypervisor_check_witness :
    check_compatible_with_source_hypervisor envH instW "d4" =
      .error .DestinationHypervisorTooOld
    ∧ check_compatible_with_source_hypervisor envH instW "d5" = .ok ()
    ∧ check_compatible_with_source_hypervisor envH instW "d6" = .ok ()
    ∧ check_compatible_with_source_hypervisor envH instW "x5" =
      .error .InvalidHypervisorType := by
  refine ⟨?_, ?_, ?_, ?_⟩
  · exact (C9_hypervisor_check envH instW "d4" cn_kvm5 cn_kvm4 rfl rfl).2.1.mpr
      (by decide)
  · exact (C9_hypervisor_check envH instW "d5" cn_kvm5 cn_kvm5 rfl rfl).2.2.mpr
      (by decide)
  · exact (C9_hypervisor_check envH instW "d6" cn_kvm5 cn_kvm6 rfl rfl).2.2.mpr
      (by decide)
  · exact (C9_hypervisor_check envH instW "x5" cn_kvm5 cn_xen5 rfl rfl).1.mpr
      (by decide)

/-- C2: once the destination resolves to exactly one aggregate and one
compute node, the memory check computes
`avail = total_memory_mb * ram_allocation_ratio - used_memory_mb` and
fails with the lack-of-memory `MigrationPreCheckError` exactly when the
instance memory requirement is unset, zero, or `avail <= mem_inst`
(boundary inclusive), and passes exactly otherwise. -/
theorem C2_memory_check (env : Env) (inst : Instance) (dest : String)
    (a : Aggregate) (s : Service) (cn : ComputeNode)
    (hagg : env.aggregate_get_by_host dest = [a])
    (hsvc : env.service_get_by_compute_host dest = some s)
    (hcn : s.compute_node = [cn]) :
    (inst.memory_mb = none →
      check_destination_has_enough_memory env inst dest =
        .error (.MigrationPreCheckError (.lackOfMemory
          ((cn.memory_mb : ℚ) * a.ram_allocation - (cn.memory_mb_used : ℚ)) none)))
    ∧ ∀ m, inst.memory_mb = some m →
      ((check_destination_has_enough_memory env inst dest =
          .error (.MigrationPreCheckError (.lackOfMemory
            ((cn.memory_mb : ℚ) * a.ram_allocation - (cn.memory_mb_used : ℚ))
            (some m))) ↔
        (m = 0 ∨
          (cn.memory_mb : ℚ) * a.ram_allocation - (cn.memory_mb_used : ℚ) ≤ (m : ℚ)))
      ∧ (check_destination_has_enough_memory env inst dest = .ok () ↔
        ¬(m = 0 ∨
          (cn.memory_mb : ℚ) * a.ram_allocation - (cn.memory_mb_used : ℚ) ≤ (m : ℚ)))) := by
  have hga : get_aggregate_metadata env dest = .ok a := by
    simp [get_aggregate_metadata, hagg]
  have hgc : get_compute_info env dest = .ok cn := by
    simp [get_compute_info, hsvc, hcn]
  unfold check_destination_has_enough_memory
  rw [hga, hgc]
  dsimp only
  constructor
  · intro hm
    rw [hm]
  · intro m hm
    rw [hm]
    dsimp only
    by_cases hcond : (m = 0 ∨
        (cn.memory_mb : ℚ) * a.ram_allocation - (cn.memory_mb_used : ℚ) ≤ (m : ℚ))
    · rw [if_pos hcond]
      exact ⟨⟨fun _ => hcond, fun _ => rfl⟩,
        ⟨fun hx => Except.noConfusion hx, fun hx => absurd hcond hx⟩⟩
    · rw [if_neg hcond]
      exact ⟨⟨fun hx => Except.noConfusion hx, fun hx => absurd hx hcond⟩,
        ⟨fun _ => hcond, fun _ => rfl⟩⟩

/-- Witness for C2 at the spec's boundary example: total 100 MB, ratio 1,
used 50 MB, so 50 MB is available; a 50 MB instance is rejected (boundary
inclusive) and a 49 MB instance is accepted. -/
theorem C2_memory_check_witness :
    check_destination_has_enough_memory envM instM50 "dest" =
      .error (.MigrationPreCheckError (.lackOfMemory
        ((cn_kvm5.memory_mb : ℚ) * aggA.ram_allocation -
          (cn_kvm5.memory_mb_used : ℚ)) (some 50)))
    ∧ check_destination_has_enough_memory envM instM49 "dest" = .ok () := by
  constructor
  · exact ((C2_memory_check envM instM50 "dest" aggA ⟨"dest", [cn_kvm5]⟩ cn_kvm5
      rfl rfl rfl).2 50 rfl).1.mpr (Or.inr (by norm_num [cn_kvm5, aggA]))
  · exact ((C2_memory_check envM instM49 "dest" aggA ⟨"dest", [cn_kvm5]⟩ cn_kvm5
      rfl rfl rfl).2 49 rfl).2.mpr (by norm_num [cn_kvm5, aggA])

/-- C4: the retry budget semantics of the selection loop.  With the
unlimited sentinel `-1` the budget check never fails; otherwise it fails
with `NoValidHost` exactly when `retries = len(attempted_hosts) - 1`
exceeds the limit; and when it fails, the loop iteration returns
`NoValidHost` with an empty trace — the scheduler is not contacted
again. -/
theorem C4_retry_budget (env : Env) (inst : Instance) (mr : Int)
    (attempted : List String) (fuel : Nat) :
    (mr = -1 → check_not_over_max_retries mr attempted = .ok ())
    ∧ (mr ≠ -1 →
        (check_not_over_max_retries mr attempted = .error .NoValidHost ↔
          (attempted.length : Int) - 1 > mr))
    ∧ (mr ≠ -1 → (attempted.length : Int) - 1 > mr →
        find_destination_loop env mr inst (fuel + 1) attempted =
          some (.error .NoValidHost, Trace.nil)) := by
  refine ⟨?_, ?_, ?_⟩
  · intro h
    simp [check_not_over_max_retries, h]
  · intro h
    by_cases h2 : (attempted.length : Int) - 1 > mr
    · simp [check_not_over_max_retries, h, h2]
    · simp [check_not_over_max_retries, h, h2]
  · intro h h2
    have hb : check_not_over_max_retries mr attempted = .error .NoValidHost := by
      simp [check_not_over_max_retries, h, h2]
    simp only [find_destination_loop, hb]

/-- Witness for C4: with `migrate_max_retries = 0` and the attempted set
already holding the source plus one rejected candidate, the next loop
iteration fails with `NoValidHost` without any scheduler call. -/
theorem C4_retry_budget_witness :
    find_destination_loop envW 0 instW 1 ["src", "c1"] =
      some (.error .NoValidHost, Trace.nil) :=
  (C4_retry_budget envW instW 0 ["src", "c1"] 0).2.2 (by decide) (by decide)

/-- C5 counterexample: with a scheduler that returns zero candidates, the
selection loop fails by propagating the `IndexError` from `[0]`-indexing
the empty result, which is not `NoValidHost` as the claim states. -/
theorem C5_empty_result_counterexample :
    find_destination envE (-1) instW 1 =
      some (.error .IndexError, Trace.mk [["src"]] [] [])
    ∧ Err.IndexError ≠ Err.NoValidHost :=
  ⟨rfl, by decide⟩

/-- C5 (amended): when the budget check passes and the scheduler returns
zero candidate hosts, the workflow fails immediately — after exactly that
one scheduler call, with no further retry — by propagating the
`IndexError` raised by indexing the empty candidate list (not by raising
`NoValidHost`). -/
theorem C5_empty_result_amended (env : Env) (mr : Int) (inst : Instance)
    (fuel : Nat) (attempted : List String)
    (hbudget : check_not_over_max_retries mr attempted = .ok ())
    (hempty : env.select_hosts attempted = []) :
    find_destination_loop env mr inst (fuel + 1) attempted =
      some (.error .IndexError, Trace.mk [attempted] [] []) := by
  simp only [find_destination_loop, hbudget, get_candidate_destination, hempty,
    List.head?_nil]

/-- Witness for C5 at a concrete budget and attempted set distinct from
the counterexample's. -/
theorem C5_empty_result_amended_witness :
    find_destination_loop envE 5 instW 1 ["src", "x"] =
      some (.error .IndexError, Trace.mk [["src", "x"]] [] []) :=
  C5_empty_result_amended envE 5 instW 0 ["src", "x"] rfl rfl

/-- C1 counterexample: candidate `c1` is hypervisor-compatible with the
source and passes the precheck RPC, so the automatic-selection loop
accepts it — even though `c1` fails the liveness check (its service is
down) and fails the aggregate/memory capacity check (it is in no
aggregate).  The loop therefore does not run the full explicit-destination
checker on scheduler candidates. -/
theorem C1_full_checks_counterexample :
    find_destination envC1 (-1) instW 1 =
      some (.ok "c1", Trace.mk [["src"]] ["c1"] [])
    ∧ check_host_is_up envC1 "c1" = .error (.ComputeServiceUnavailable "c1")
    ∧ check_destination_has_enough_memory envC1 instW "c1" =
      .error (.MigrationPreCheckError .notInAnyAggregate) :=
  ⟨rfl, rfl, rfl⟩

/-- C1 (amended): one iteration of the selection loop, once the budget
check passes and the scheduler names a candidate, runs exactly
`candidate_checks` on it — the hypervisor type/version check followed by
the destination precheck RPC, and nothing else; on success the candidate
is returned, on an `Invalid`-class (retryable) failure the candidate is
appended to the attempted set and the loop recurses, and on a
non-retryable failure the error propagates immediately. -/
theorem C1_candidate_loop_amended (env : Env) (mr : Int) (inst : Instance)
    (fuel : Nat) (attempted : List String) (host : String) (md : MigrateData)
    (e : Err) (t2 : Trace)
    (hbudget : check_not_over_max_retries mr attempted = .ok ())
    (hcand : (env.select_hosts attempted).head? = some host) :
    (candidate_checks env inst host = (.ok md, t2) →
      find_destination_loop env mr inst (fuel + 1) attempted =
        some (.ok host, Trace.mk [attempted] [] [] ++ t2))
    ∧ (candidate_checks env inst host = (.error e, t2) → ErrIsInvalid e = true →
      find_destination_loop env mr inst (fuel + 1) attempted =
        Option.map (fun p => (p.1, Trace.mk [attempted] [] [] ++ t2 ++ p.2))
          (find_destination_loop env mr inst fuel (attempted ++ [host])))
    ∧ (candidate_checks env inst host = (.error e, t2) → ErrIsInvalid e = false →
      find_destination_loop env mr inst (fuel + 1) attempted =
        some (.error e, Trace.mk [attempted] [] [] ++ t2))
    ∧ (check_compatible_with_source_hypervisor env inst host = .ok () →
      candidate_checks env inst host = call_livem_checks_on_host env host)
    ∧ (∀ e2, check_compatible_with_source_hypervisor env inst host = .error e2 →
      candidate_checks env inst host = (.error e2, Trace.nil)) := by
  refine ⟨?_, ?_, ?_, ?_, ?_⟩
  · intro hc
    simp only [find_destination_loop, hbudget, get_candidate_destination, hcand, hc]
  · intro hc hi
    simp only [find_destination_loop, hbudget, get_candidate_destination, hcand, hc, hi,
      if_true]
    cases hrec : find_destination_loop env mr inst fuel (attempted ++ [host]) with
    | none => simp [hrec]
    | some p =>
      obtain ⟨r3, t3⟩ := p
      simp [hrec]
  · intro hc hi
    simp only [find_destination_loop, hbudget, get_candidate_destination, hcand, hc, hi]
    simp
  · intro hok
    simp [candidate_checks, hok]
  · intro e2 he
    simp [candidate_checks, he]

/-- Witness for C1: the loop accepts `c1` after just the hypervisor check
and the precheck RPC. -/
theorem C1_candidate_loop_amended_witness :
    find_destination_loop envC1 (-1) instW 1 ["src"] =
      some (.ok "c1", Trace.mk [["src"]] ["c1"] []) := by
  have h := C1_candidate_loop_amended envC1 (-1) instW 0 ["src"] "c1" "md"
    Err.NoValidHost (Trace.mk [] ["c1"] []) (by simp [check_not_over_max_retries]) rfl
  exact h.1 rfl

/-- C6: in the automatic-selection path, the successive exclusion lists
passed to the scheduler within one run of `execute` (the recorded
`sched_calls`) start exactly at the singleton source host, grow by exactly
one appended entry per rejected candidate between consecutive calls, and
are monotone — every later exclusion list extends every earlier one, so a
host rejected once stays in every later exclusion list of the same
request. -/
theorem C6_attempted_hosts_invariant (env : Env) (mr : Int) (task : MigTask)
    (fuel : Nat) (r : Except Err String) (t : Trace)
    (hdest : pyTruthy task.destination = false)
    (hexec : execute env mr task fuel = some (r, t)) :
    (∀ l, t.sched_calls.head? = some l → l = [task.inst.host])
    ∧ List.Chain' (fun x y => ∃ g, y = x ++ [g]) t.sched_calls
    ∧ ∀ i j (hi : i < t.sched_calls.length) (hj : j < t.sched_calls.length),
        i ≤ j →
        ∃ ext, t.sched_calls.get ⟨j, hj⟩ = t.sched_calls.get ⟨i, hi⟩ ++ ext := by
  have hchain : SchedChain [task.inst.host] t.sched_calls := by
    unfold execute at hexec
    cases h1 : check_instance_is_running task.inst with
    | error e =>
      rw [h1] at hexec
      obtain ⟨h3, h4⟩ : Except.error e = r ∧ Trace.nil = t := by simpa using hexec
      rw [← h4]
      simpa using SchedChain.nil [task.inst.host]
    | ok u =>
      simp only [h1] at hexec
      cases h2 : check_host_is_up env task.inst.host with
      | error e =>
        simp only [h2] at hexec
        obtain ⟨h3, h4⟩ : Except.error e = r ∧ Trace.nil = t := by simpa using hexec
        rw [← h4]
        simpa using SchedChain.nil [task.inst.host]
      | ok u2 =>
        simp only [h2, hdest, if_true] at hexec
        unfold find_destination at hexec
        cases hrec : find_destination_loop env mr task.inst fuel [task.inst.host] with
        | none => simp [hrec] at hexec
        | some p =>
          obtain ⟨r0, t0⟩ := p
          have hc0 : SchedChain [task.inst.host] t0.sched_calls :=
            find_destination_loop_schedChain env mr task.inst fuel
              [task.inst.host] r0 t0 hrec
          cases r0 with
          | error e =>
            simp only [hrec] at hexec
            obtain ⟨h3, h4⟩ : Except.error e = r ∧ t0 = t := by simpa using hexec
            rw [← h4]
            exact hc0
          | ok d =>
            simp only [hrec] at hexec
            obtain ⟨h3, h4⟩ : Except.ok d = r ∧
                t0 ++ Trace.mk [] [] [d] = t := by simpa using hexec
            rw [← h4]
            simpa using hc0
  exact ⟨fun l hl => schedChain_head _ _ hchain l hl,
    schedChain_chain _ _ hchain, schedChain_mono _ _ hchain⟩

/-- Witness for C6: in the concrete two-iteration run (candidate `c1`
rejected, then `c2` accepted) the two exclusion lists are `[src]` and
`[src, c1]`, each later one the previous plus one rejected host. -/
theorem C6_attempted_hosts_invariant_witness :
    List.Chain' (fun x y => ∃ g, y = x ++ [g]) [["src"], ["src", "c1"]] := by
  have hexec : execute envW (-1) taskW 3 =
      some (.ok "c2", Trace.mk [["src"], ["src", "c1"]] ["c2"] ["c2"]) := rfl
  have h := C6_attempted_hosts_invariant envW (-1) taskW 3 (.ok "c2")
    (Trace.mk [["src"], ["src", "c1"]] ["c2"] ["c2"]) rfl hexec
  exact h.2.1
